import Mathlib

/-!
Verification of the request-admission gate of `idiomatic-go`: the GCRA-based
distributed rate limiter, the admission middleware (`RateLimitMiddleware` in
`middleware/ratelimit.go`), the authentication gate (`AuthMiddleware`), and the
user service (`UserService.CreateUser`, `UserService.Login`, `DB.WithTx`).

Time and durations on the limiter level are modelled as exact rationals
(seconds); on the Go middleware level durations are modelled as integers
(nanoseconds), matching `time.Duration`.
-/

/-! ## The limiter model (GCRA) -/

/-- Limiter configuration as in spec §3: `rate` requests per `period`, a burst
of `burst`.  The Go middleware passes `Rate = Burst = config.Rate` to
`redis_rate`, but the model keeps the three fields separate as the spec does. -/
structure LimiterConfig where
  rate : Nat
  period : Rat
  burst : Nat
deriving DecidableEq

/-- The emission interval `T = period / rate` (spec §4.1 step 1). -/
def emissionInterval (cfg : LimiterConfig) : Rat :=
  cfg.period / (cfg.rate : Rat)

/-- The delay tolerance `τ = T × burst` (spec §4.1 step 1). -/
def delayTolerance (cfg : LimiterConfig) : Rat :=
  emissionInterval cfg * (cfg.burst : Rat)

/-- A limiter decision (spec §3): `allowed`, `remaining`, `retryAfter`
(meaningful only when `allowed` is false; `0` otherwise), `resetAfter`. -/
structure Decision where
  allowed : Bool
  remaining : Int
  retryAfter : Rat
  resetAfter : Rat
deriving DecidableEq

/-- Modelled from the spec: the Shared-State Limiter Client's `Check` (spec
§4.1).  The algorithm itself lives in the `redis_rate/v10` dependency (a Lua
script run by Redis) and is not part of `src/`, so it is reconstructed from the
spec.  The state argument is the stored TAT for the key (`none` when absent,
treated as `now`); the result is the decision together with the new stored
state.  The conformance test is `max(TAT, now) + T - now ≤ τ`, i.e.
`newTAT - now ≤ τ`: this is the orientation forced by the spec's own
`remaining`/`resetAfter` formulas, its glossary (TAT runs ahead of `now` as
quota is consumed) and the §8 scenarios; §4.1's literal inequality
`now + T - TAT ≤ τ` transposes `now` and `TAT` and contradicts those (see the
counterexamples below). -/
def Check (cfg : LimiterConfig) (tatOpt : Option Rat) (now : Rat) : Decision × Option Rat :=
  let T := emissionInterval cfg
  let tol := delayTolerance cfg
  let tat := tatOpt.getD now
  let newTat := max tat now + T
  if newTat - now ≤ tol then
    (⟨true, ⌊(tol - (newTat - now)) / T⌋, 0, newTat - now⟩, some newTat)
  else
    (⟨false, 0, (newTat - now) - tol, tat - now⟩, tatOpt)

/-- The configuration of the §8 scenario: `rate=5`, `period=1s`, `burst=5`. -/
def cfg8 : LimiterConfig := ⟨5, 1, 5⟩

/-! ## Go standard-library helpers used by the middleware -/

/-- Decimal rendering of a natural number, as Go's `fmtInt`. -/
def fmtInt (n : Nat) : String :=
  (Nat.toDigits 10 n).asString

/-- The fractional part written by Go's `fmtFrac`: the last `prec` decimal
digits of `u`, with trailing zeros dropped and a leading `.`, or the empty
string when that fraction is zero. -/
def fmtFrac (u : Nat) (prec : Nat) : String :=
  let fr := u % 10 ^ prec
  if fr = 0 then ""
  else
    let ds := (Nat.toDigits 10 fr).asString
    let padded := String.mk (List.replicate (prec - ds.length) '0') ++ ds
    "." ++ String.mk (padded.toList.reverse.dropWhile (fun c => c = '0')).reverse

/-- Go's `time.Duration.String` (`fmt.go` in package `time`), for a duration of
`d` nanoseconds: `"0s"`, `"200ms"`, `"1.5µs"`, `"1h2m3.5s"`, ... -/
def goDurationString (d : Int) : String :=
  if d = 0 then "0s"
  else
    let u := d.natAbs
    let core :=
      if u < 1000 then fmtInt u ++ "ns"
      else if u < 1000000 then fmtInt (u / 1000) ++ fmtFrac u 3 ++ "µs"
      else if u < 1000000000 then fmtInt (u / 1000000) ++ fmtFrac u 6 ++ "ms"
      else
        let secs := u / 1000000000
        let sPart := fmtInt (secs % 60) ++ fmtFrac u 9 ++ "s"
        let mins := secs / 60
        if mins = 0 then sPart
        else
          let mPart := fmtInt (mins % 60) ++ "m" ++ sPart
          let hrs := mins / 60
          if hrs = 0 then mPart else fmtInt hrs ++ "h" ++ mPart
    if d < 0 then "-" ++ core else core

/-- Go's conversion of an integer to `rune` (`int32`): two's-complement
truncation to 32 bits. -/
def goRuneOfInt (n : Int) : Int :=
  (n + 2147483648) % 4294967296 - 2147483648

/-- Go's conversion `string(r)` of a rune to a string: the UTF-8 encoding of
the code point, or `"�"` when the value is not a valid code point. -/
def goStringOfRune (r : Int) : String :=
  if 0 ≤ r ∧ Nat.isValidChar r.toNat then String.singleton (Char.ofNat r.toNat)
  else "�"

/-- Go's `string(rune(n))` for an integer `n`, as written (by mistake) for the
quota headers in `RateLimitMiddleware`. -/
def goStringOfInt (n : Int) : String :=
  goStringOfRune (goRuneOfInt n)

/-! ## The custom error values (`errors` package) -/

/-- `custom_errors.APIError`. -/
structure APIError where
  statusCode : Nat
  code : String
  message : String
deriving DecidableEq

/-- `custom_errors.NewAPIError`. -/
def NewAPIError (statusCode : Nat) (code message : String) : APIError :=
  ⟨statusCode, code, message⟩

/-- `custom_errors.ErrUnauthorized`. -/
def ErrUnauthorized : APIError :=
  NewAPIError 401 "unauthorized" "Authentication failed"

/-- `custom_errors.ErrInternalServerError`. -/
def ErrInternalServerError : APIError :=
  NewAPIError 500 "internal_server_error" "Something went wrong"

/-! ## The admission middleware (`middleware/ratelimit.go`) -/

/-- The fields of `redis_rate.Result` read by the middleware.  `allowedCount`
is `res.Allowed` (how many requests were permitted; the middleware rejects on
`res.Allowed <= 0`); durations are in nanoseconds (`time.Duration`). -/
structure RedisRateResult where
  allowedCount : Int
  remaining : Int
  retryAfter : Int
  resetAfter : Int
deriving DecidableEq

/-- Log severity used by the middleware (`logrus`). -/
inductive LogSeverity where
  | errorSev : LogSeverity
  | warnSev : LogSeverity
deriving DecidableEq

/-- The observable effect of one gin middleware invocation: the status and
body written by `c.JSON` (if any), the response headers set by `c.Header`,
whether `c.Abort` was called, whether `c.Next` was called, and the severity of
the log line emitted (if any). -/
structure GinOutcome where
  status : Option Nat
  body : Option APIError
  headers : List (String × String)
  aborted : Bool
  nextCalled : Bool
  logSeverity : Option LogSeverity
deriving DecidableEq

/-- The per-request body of `RateLimitMiddleware` (`middleware/ratelimit.go`,
lines 37–76).  Its input is the outcome of `limiter.Allow` (`Except.error` for
a store error).  `fmtReset` abstracts RFC 1123 formatting of an absolute
timestamp; `now` is the wall clock in nanoseconds, so the reset header carries
`now + res.resetAfter` exactly as `time.Now().Add(res.ResetAfter)` does. -/
def RateLimitMiddleware (rate : Nat) (fmtReset : Int → String) (now : Int)
    (limiterOutcome : Except String RedisRateResult) : GinOutcome :=
  match limiterOutcome with
  | Except.error _ =>
      { status := some 500, body := some ErrInternalServerError, headers := [],
        aborted := true, nextCalled := false, logSeverity := some LogSeverity.errorSev }
  | Except.ok res =>
      if res.allowedCount ≤ 0 then
        { status := some 429,
          body := some (NewAPIError 429 "rate_limit_exceeded" "Too many requests"),
          headers := [("Retry-After", goDurationString res.retryAfter)],
          aborted := true, nextCalled := false, logSeverity := some LogSeverity.warnSev }
      else
        { status := none, body := none,
          headers := [("X-RateLimit-Limit", goStringOfInt rate),
                      ("X-RateLimit-Remaining", goStringOfInt res.remaining),
                      ("X-RateLimit-Reset", fmtReset (now + res.resetAfter))],
          aborted := false, nextCalled := true, logSeverity := none }

/-! ## The authentication gate (`AuthMiddleware`) -/

/-- Character-level splitting, structurally recursive.  `splitCharList sep cs`
cuts `cs` at every occurrence of `sep`, keeping empty pieces. -/
def splitCharList (sep : Char) : List Char → List (List Char)
  | [] => [[]]
  | c :: rest =>
      let r := splitCharList sep rest
      if c = sep then [] :: r
      else
        match r with
        | [] => [[c]]
        | g :: gs => (c :: g) :: gs

/-- Go's `strings.Split(s, " ")`: split at every space, keeping empty pieces
(`""` yields `[""]`, `"a  b"` yields `["a", "", "b"]`). -/
def goSplitSpace (s : String) : List String :=
  (splitCharList ' ' s.toList).map String.mk

/-- Outcome of `jwt.ParseWithClaims` followed by the `token.Claims.(*Claims)`
assertion, abstracted over the crypto: a parse/validity failure
(`err != nil || !token.Valid`), a failed claims cast, or decoded claims. -/
inductive TokenParse where
  | parseFailed : TokenParse
  | castFailed : TokenParse
  | parsed (userId : Int) (role : String) : TokenParse
deriving DecidableEq

/-- Result of the authentication gate: rejection with a response body, or
proceeding with the identity injected into the request context. -/
inductive AuthOutcome where
  | rejected (e : APIError) : AuthOutcome
  | proceeded (userId : Int) (role : String) : AuthOutcome
deriving DecidableEq

/-- The per-request body of `AuthMiddleware` (`middleware` package, the file
defining `Claims`).  `authHeader` is the `Authorization` header (`""` when
missing, as `c.GetHeader` returns); `parse` is the outcome of
`jwt.ParseWithClaims` on the token part.  Every rejection also calls
`c.Abort`; `proceeded` corresponds to `c.Set` of `user_id`/`role` followed by
`c.Next`. -/
def AuthMiddleware (authHeader : String) (parse : String → TokenParse) : AuthOutcome :=
  if authHeader = "" then AuthOutcome.rejected ErrUnauthorized
  else
    let parts := goSplitSpace authHeader
    if parts.length ≠ 2 ∨ parts.headD "" ≠ "Bearer" then
      AuthOutcome.rejected (NewAPIError 401 "invalid_auth_header" "Invalid authorization header format")
    else
      match parse (parts.getD 1 "") with
      | TokenParse.parseFailed =>
          AuthOutcome.rejected (NewAPIError 401 "invalid_token" "Invalid token")
      | TokenParse.castFailed =>
          AuthOutcome.rejected (NewAPIError 401 "invalid_claims" "Invalid token claims")
      | TokenParse.parsed uid role => AuthOutcome.proceeded uid role

/-! ## The user service (`services/user.go`, `database/database.go`) -/

/-- A row of the `users` table (`database` models; `role` defaults to
`'user'` per `schema.sql`). -/
structure UserRow where
  id : Int
  username : String
  email : String
  passwordHash : String
  role : String
deriving DecidableEq

/-- A row of the `audit_logs` table. -/
structure AuditRow where
  userId : Int
  action : String
deriving DecidableEq

/-- The database state touched by the user service: the two tables plus the
next serial id. -/
structure DBState where
  users : List UserRow
  audits : List AuditRow
  nextId : Int
deriving DecidableEq

/-- `db.CreateUserParams`. -/
structure CreateUserParams where
  username : String
  email : String
  passwordHash : String
deriving DecidableEq

/-- `DB.WithTx` (`database/database.go`, lines 74–90): run `body` inside a
transaction; on error the transaction is rolled back (the state reverts to
`s`) and the error is propagated, otherwise the new state is committed.
Transaction semantics of pgx are modelled as snapshot/rollback; `BeginTx`,
`Rollback` and `Commit` themselves are assumed to succeed. -/
def WithTx (s : DBState) (body : DBState → Except APIError (UserRow × DBState)) :
    Except APIError UserRow × DBState :=
  match body s with
  | Except.error e => (Except.error e, s)
  | Except.ok (u, s2) => (Except.ok u, s2)

/-- Fault injection for the three fallible steps inside `CreateUser`'s
transaction: bcrypt hashing, the `users` insert, the `audit_logs` insert. -/
structure TxFaults where
  hashFails : Bool
  userInsertFails : Bool
  auditInsertFails : Bool
deriving DecidableEq

/-- The closure passed to `WithTx` by `UserService.CreateUser`
(`services/user.go`, lines 105–133): hash the password, insert the user row
(`queries.CreateUser`), insert the `"user_created"` audit row
(`queries.CreateAuditLog`); each failure is logged and surfaced as
`ErrInternalServerError`.  `hashed` is the bcrypt output when hashing
succeeds (bcrypt itself is external). -/
def createUserTxBody (f : TxFaults) (hashed : String) (p : CreateUserParams)
    (s : DBState) : Except APIError (UserRow × DBState) :=
  if f.hashFails then Except.error ErrInternalServerError
  else if f.userInsertFails then Except.error ErrInternalServerError
  else
    let u : UserRow := ⟨s.nextId, p.username, p.email, hashed, "user"⟩
    let s1 : DBState := ⟨s.users ++ [u], s.audits, s.nextId + 1⟩
    if f.auditInsertFails then Except.error ErrInternalServerError
    else Except.ok (u, ⟨s1.users, s1.audits ++ [⟨u.id, "user_created"⟩], s1.nextId⟩)

/-- `UserService.CreateUser` (`services/user.go`, lines 103–138): the whole
create runs through `WithTx`. -/
def CreateUser (f : TxFaults) (hashed : String) (p : CreateUserParams)
    (s : DBState) : Except APIError UserRow × DBState :=
  WithTx s (createUserTxBody f hashed p)

/-- Go error identity as observed by `Login`'s `err == sql.ErrNoRows` test.
The queries are pgx-native (`New(pool)` over a `pgxpool.Pool`, generated
`q.db.QueryRow(ctx, ...)`), so `GetUserByEmail` reports a missing row as
`pgx.ErrNoRows` — a sentinel distinct from `database/sql`'s `sql.ErrNoRows`
and never `==` to it (pre-v5.5 a separate `errors.New`; from v5.5 a proxy
that wraps but is not identical to it).  The constructors keep the two
sentinels apart; `otherFailure` is any other database error. -/
inductive GoError where
  | pgxNoRows : GoError
  | sqlNoRows : GoError
  | otherFailure : GoError
deriving DecidableEq

/-- `UserService.Login` (`services/user.go`, lines 140–157).  `fetch` is the
outcome of the pgx-backed `Queries.GetUserByEmail` (a missing user arrives as
`Except.error GoError.pgxNoRows`); the service's `err == sql.ErrNoRows`
comparison is embedded literally, so its `ErrUnauthorized` branch fires only
on `sqlNoRows`, which pgx never produces.  `bcryptMatch` abstracts
`bcrypt.CompareHashAndPassword` (true = match). -/
def Login (fetch : Except GoError UserRow) (bcryptMatch : String → String → Bool)
    (password : String) : Except APIError UserRow :=
  match fetch with
  | Except.error e =>
      if e = GoError.sqlNoRows then Except.error ErrUnauthorized
      else Except.error ErrInternalServerError
  | Except.ok u =>
      if bcryptMatch u.passwordHash password then Except.ok u
      else Except.error ErrUnauthorized

/-- `UserHandler.Login` (`handlers` package) after a well-formed request body:
on any service error respond `401` with body `"invalid credentials"`; on
success sign a JWT (`sign`, external crypto) and respond `200` with the token,
or `500` if signing fails.  The result is (status, response payload). -/
def LoginHandler (svc : Except APIError UserRow)
    (sign : UserRow → Except Unit String) : Nat × String :=
  match svc with
  | Except.error _ => (401, "invalid credentials")
  | Except.ok u =>
      match sign u with
      | Except.error _ => (500, "failed to generate token")
      | Except.ok tok => (200, tok)

/-! ## Theorems: the limiter (C1, C2, C3, C8) -/

/-- C1 (amended): for a valid configuration, whenever
`max(TAT, now) + T - now ≤ τ` (the conformance test of the model; the claim's
literal test `now + T - TAT ≤ τ` is refuted below), `Check` allows the
request, stores `newTAT = max(TAT, now) + T`, and returns
`remaining = floor((τ - (newTAT - now)) / T)`, which already lies in
`[0, burst - 1]`, so the claimed clamping is the identity on it. -/
theorem check_conforming_behavior (cfg : LimiterConfig) (tatOpt : Option Rat) (now : Rat)
    (hrate : 1 ≤ cfg.rate) (hperiod : 0 < cfg.period) (_hburst : 1 ≤ cfg.burst)
    (hconf : max (tatOpt.getD now) now + emissionInterval cfg - now ≤ delayTolerance cfg) :
    (Check cfg tatOpt now).1.allowed = true ∧
    (Check cfg tatOpt now).2 = some (max (tatOpt.getD now) now + emissionInterval cfg) ∧
    (Check cfg tatOpt now).1.remaining =
      ⌊(delayTolerance cfg - (max (tatOpt.getD now) now + emissionInterval cfg - now)) /
        emissionInterval cfg⌋ ∧
    0 ≤ (Check cfg tatOpt now).1.remaining ∧
    (Check cfg tatOpt now).1.remaining ≤ (cfg.burst : Int) - 1 := by
  have hT : 0 < emissionInterval cfg := by
    have h5 : (0 : Rat) < (cfg.rate : Rat) := by
      exact_mod_cast Nat.lt_of_lt_of_le Nat.zero_lt_one hrate
    exact div_pos hperiod h5
  have hcheck : Check cfg tatOpt now =
      (⟨true,
        ⌊(delayTolerance cfg - (max (tatOpt.getD now) now + emissionInterval cfg - now)) /
          emissionInterval cfg⌋, 0,
        max (tatOpt.getD now) now + emissionInterval cfg - now⟩,
       some (max (tatOpt.getD now) now + emissionInterval cfg)) := by
    simp only [Check]
    rw [if_pos hconf]
  rw [hcheck]
  refine ⟨rfl, rfl, rfl, ?_, ?_⟩
  · exact Int.floor_nonneg.mpr (div_nonneg (sub_nonneg.mpr hconf) hT.le)
  · have hd : emissionInterval cfg ≤ max (tatOpt.getD now) now + emissionInterval cfg - now := by
      have hm := le_max_right (tatOpt.getD now) now
      linarith
    have hq : (delayTolerance cfg - (max (tatOpt.getD now) now + emissionInterval cfg - now)) /
        emissionInterval cfg ≤ (cfg.burst : Rat) - 1 := by
      rw [div_le_iff₀ hT]
      have htol : delayTolerance cfg = emissionInterval cfg * (cfg.burst : Rat) := rfl
      nlinarith [hd, hT]
    have hcast : (((cfg.burst : Int) - 1 : Int) : Rat) = (cfg.burst : Rat) - 1 := by
      push_cast
      ring
    calc ⌊(delayTolerance cfg - (max (tatOpt.getD now) now + emissionInterval cfg - now)) /
          emissionInterval cfg⌋
        ≤ ⌊((cfg.burst : Rat) - 1)⌋ := Int.floor_le_floor hq
      _ = (cfg.burst : Int) - 1 := by rw [← hcast, Int.floor_intCast]

/-- Witness for `check_conforming_behavior`: the scenario configuration with a
fresh key at `now = 0`. -/
theorem check_conforming_behavior_w :
    (Check cfg8 none 0).1.allowed = true ∧
    (Check cfg8 none 0).2 = some (max ((none : Option Rat).getD 0) 0 + emissionInterval cfg8) ∧
    (Check cfg8 none 0).1.remaining =
      ⌊(delayTolerance cfg8 - (max ((none : Option Rat).getD 0) 0 + emissionInterval cfg8 - 0)) /
        emissionInterval cfg8⌋ ∧
    0 ≤ (Check cfg8 none 0).1.remaining ∧
    (Check cfg8 none 0).1.remaining ≤ (cfg8.burst : Int) - 1 :=
  check_conforming_behavior cfg8 none 0 (by norm_num [cfg8]) (by norm_num [cfg8])
    (by norm_num [cfg8]) (by norm_num [cfg8, emissionInterval, delayTolerance])

/-- C1 (counterexample to the claim as stated): with `rate=5, period=1, burst=5`
(`T = 1/5`, `τ = 1`), stored `TAT = 1` and `now = 0`, the claim's premise
`now + T - TAT ≤ τ` holds (`-4/5 ≤ 1`) yet `Check` refuses the request and
leaves the stored TAT unchanged: the burst is exhausted.  The spec's
inequality transposes `now` and `TAT`. -/
theorem check_spec_inequality_conforming_cex :
    ((0 : Rat) + emissionInterval cfg8 - 1 ≤ delayTolerance cfg8) ∧
    (Check cfg8 (some 1) 0).1.allowed = false ∧
    (Check cfg8 (some 1) 0).2 = some 1 := by
  refine ⟨by norm_num [emissionInterval, delayTolerance, cfg8], ?_, ?_⟩ <;>
    · simp only [Check, cfg8, emissionInterval, delayTolerance]
      norm_num

/-- C2: serializability of the last unit.  The store executes the
read-check-write of `Check` as one atomic transition (the model's step), so
two concurrent same-key checks execute in some order.  If the first check at
`now` is allowed with `remaining = 0` (exactly one unit was left), the second
check at the same instant, seeing the written TAT, is refused — the two can
never both be allowed. -/
theorem check_last_unit_exclusive (cfg : LimiterConfig) (tatOpt : Option Rat) (now : Rat)
    (hrate : 1 ≤ cfg.rate) (hperiod : 0 < cfg.period)
    (hallow : (Check cfg tatOpt now).1.allowed = true)
    (hrem : (Check cfg tatOpt now).1.remaining = 0) :
    (Check cfg (Check cfg tatOpt now).2 now).1.allowed = false := by
  have hT : 0 < emissionInterval cfg := by
    have h5 : (0 : Rat) < (cfg.rate : Rat) := by
      exact_mod_cast Nat.lt_of_lt_of_le Nat.zero_lt_one hrate
    exact div_pos hperiod h5
  by_cases hconf : max (tatOpt.getD now) now + emissionInterval cfg - now ≤ delayTolerance cfg
  case neg =>
    exfalso
    simp only [Check] at hallow
    rw [if_neg hconf] at hallow
    exact Bool.false_ne_true hallow
  case pos =>
    have hs : (Check cfg tatOpt now).2 =
        some (max (tatOpt.getD now) now + emissionInterval cfg) := by
      simp only [Check]
      rw [if_pos hconf]
    have hr0 : ⌊(delayTolerance cfg -
        (max (tatOpt.getD now) now + emissionInterval cfg - now)) / emissionInterval cfg⌋ = 0 := by
      simp only [Check] at hrem
      rw [if_pos hconf] at hrem
      exact hrem
    have hlt1 : (delayTolerance cfg -
        (max (tatOpt.getD now) now + emissionInterval cfg - now)) / emissionInterval cfg < 1 := by
      have hx := Int.lt_floor_add_one ((delayTolerance cfg -
        (max (tatOpt.getD now) now + emissionInterval cfg - now)) / emissionInterval cfg)
      rw [hr0] at hx
      simpa using hx
    have hlt : delayTolerance cfg -
        (max (tatOpt.getD now) now + emissionInterval cfg - now) < emissionInterval cfg := by
      rwa [div_lt_one hT] at hlt1
    rw [hs]
    have hge : now ≤ max (tatOpt.getD now) now + emissionInterval cfg := by
      have hm := le_max_right (tatOpt.getD now) now
      linarith
    have hcond2 : ¬ (max ((some (max (tatOpt.getD now) now + emissionInterval cfg)).getD now) now +
        emissionInterval cfg - now ≤ delayTolerance cfg) := by
      rw [Option.getD_some, max_eq_left hge]
      push_neg
      linarith
    simp only [Check]
    rw [if_neg hcond2]

/-- Witness for `check_last_unit_exclusive`: with `TAT = 4/5` at `now = 0` the
scenario bucket has exactly one unit left; the replayed check is refused. -/
theorem check_last_unit_exclusive_w :
    (Check cfg8 (Check cfg8 (some (4/5 : Rat)) 0).2 0).1.allowed = false :=
  check_last_unit_exclusive cfg8 (some (4/5 : Rat)) 0 (by norm_num [cfg8]) (by norm_num [cfg8])
    (by norm_num [Check, cfg8, emissionInterval, delayTolerance])
    (by norm_num [Check, cfg8, emissionInterval, delayTolerance])

/-- C3 (amended): whenever `max(TAT, now) + T - now > τ` (the model's
non-conformance test; the claim's literal test `now + T - TAT > τ` is refuted
below), `Check` refuses with `remaining = 0` and
`retryAfter = (max(TAT, now) + T - now) - τ`, leaves the stored TAT unchanged,
and replaying the check returns the identical `retryAfter`. -/
theorem check_nonconforming_behavior (cfg : LimiterConfig) (tatOpt : Option Rat) (now : Rat)
    (hconf : delayTolerance cfg < max (tatOpt.getD now) now + emissionInterval cfg - now) :
    (Check cfg tatOpt now).1.allowed = false ∧
    (Check cfg tatOpt now).1.remaining = 0 ∧
    (Check cfg tatOpt now).1.retryAfter =
      (max (tatOpt.getD now) now + emissionInterval cfg - now) - delayTolerance cfg ∧
    (Check cfg tatOpt now).2 = tatOpt ∧
    (Check cfg (Check cfg tatOpt now).2 now).1.retryAfter =
      (Check cfg tatOpt now).1.retryAfter := by
  have hcheck : Check cfg tatOpt now =
      (⟨false, 0, (max (tatOpt.getD now) now + emissionInterval cfg - now) - delayTolerance cfg,
        tatOpt.getD now - now⟩, tatOpt) := by
    simp only [Check]
    rw [if_neg (not_le.mpr hconf)]
  rw [hcheck]
  refine ⟨rfl, rfl, rfl, rfl, ?_⟩
  rw [hcheck]

/-- Witness for `check_nonconforming_behavior`: the exhausted scenario bucket
(`TAT = 1` at `now = 0`). -/
theorem check_nonconforming_behavior_w :
    (Check cfg8 (some 1) 0).1.allowed = false ∧
    (Check cfg8 (some 1) 0).1.remaining = 0 ∧
    (Check cfg8 (some 1) 0).1.retryAfter =
      (max ((some (1 : Rat)).getD 0) 0 + emissionInterval cfg8 - 0) - delayTolerance cfg8 ∧
    (Check cfg8 (some 1) 0).2 = some 1 ∧
    (Check cfg8 (Check cfg8 (some 1) 0).2 0).1.retryAfter =
      (Check cfg8 (some 1) 0).1.retryAfter :=
  check_nonconforming_behavior cfg8 (some 1) 0
    (by norm_num [cfg8, emissionInterval, delayTolerance])

/-- C3 (counterexample to the claim as stated): with the scenario
configuration, a stale stored `TAT = -2` and `now = 0`, the claim's premise
`now + T - TAT > τ` holds (`11/5 > 1`), yet `Check` allows the request and
mutates the stored TAT: a key far behind `now` has a full bucket.  The spec's
inequality transposes `now` and `TAT`. -/
theorem check_spec_inequality_nonconforming_cex :
    (delayTolerance cfg8 < (0 : Rat) + emissionInterval cfg8 - (-2)) ∧
    (Check cfg8 (some (-2)) 0).1.allowed = true ∧
    (Check cfg8 (some (-2)) 0).2 ≠ some (-2) := by
  refine ⟨by norm_num [emissionInterval, delayTolerance, cfg8], ?_, ?_⟩ <;>
    · simp only [Check, cfg8, emissionInterval, delayTolerance]
      norm_num

/-- C8: the §8 scenario, `rate = 5, period = 1s, burst = 5`, fresh key.  Five
checks at `t = 0` are allowed with `remaining = 4, 3, 2, 1, 0` (each line feeds
the stored TAT of the previous one forward); the sixth at `t = 0` is refused
with `retryAfter = 1/5 s`; a check at `t = 1/4 s` is allowed again. -/
theorem check_scenario_burst_five :
    Check cfg8 none 0 = (⟨true, 4, 0, 1/5⟩, some (1/5)) ∧
    Check cfg8 (some (1/5)) 0 = (⟨true, 3, 0, 2/5⟩, some (2/5)) ∧
    Check cfg8 (some (2/5)) 0 = (⟨true, 2, 0, 3/5⟩, some (3/5)) ∧
    Check cfg8 (some (3/5)) 0 = (⟨true, 1, 0, 4/5⟩, some (4/5)) ∧
    Check cfg8 (some (4/5)) 0 = (⟨true, 0, 0, 1⟩, some 1) ∧
    Check cfg8 (some 1) 0 = (⟨false, 0, 1/5, 1⟩, some 1) ∧
    (Check cfg8 (some 1) (1/4)).1.allowed = true := by
  refine ⟨?_, ?_, ?_, ?_, ?_, ?_, ?_⟩ <;>
    · simp only [Check, cfg8, emissionInterval, delayTolerance]
      norm_num [Int.floor_eq_iff]

/-! ## Theorems: the admission middleware (C4, C5, C6) -/

/-- C4: when the limiter call fails (store unreachable / timed out), the
middleware answers HTTP 500 with the internal-server-error body, logs at error
severity, aborts the chain and never calls the downstream handler —
fail-closed. -/
theorem ratelimit_store_error_fails_closed (rate : Nat) (fmtReset : Int → String)
    (now : Int) (e : String) :
    RateLimitMiddleware rate fmtReset now (Except.error e) =
      { status := some 500, body := some ErrInternalServerError, headers := [],
        aborted := true, nextCalled := false, logSeverity := some LogSeverity.errorSev } :=
  rfl

/-- C5 (code evaluated at the failing input): on a refused request with
`retryAfter = 200ms` the middleware does answer 429 and abort, but the
`Retry-After` header it sets is Go's duration rendering `"200ms"` —
`res.RetryAfter.String()` — which is neither a delta-seconds value (it
contains non-digits) nor an HTTP-date (an HTTP-date is at least 24
characters), so no conforming HTTP client can parse it. -/
theorem ratelimit_retry_after_go_duration_cex :
    RateLimitMiddleware 5 (fun t => fmtInt t.natAbs) 0
        (Except.ok ⟨0, 0, 200000000, 1000000000⟩) =
      { status := some 429,
        body := some (NewAPIError 429 "rate_limit_exceeded" "Too many requests"),
        headers := [("Retry-After", "200ms")],
        aborted := true, nextCalled := false, logSeverity := some LogSeverity.warnSev } ∧
    ¬ ("200ms").toList.all (fun c => c.isDigit) ∧
    ("200ms").length < 24 := by
  refine ⟨?_, by decide, by decide⟩
  decide

/-- C6 (code evaluated at the failing input): on an allowed request with
`rate = 5` and `remaining = 4` the middleware formats the limit and remaining
headers with `string(rune(n))`, producing the code points `"\x05"` and
`"\x04"` instead of the decimals `"5"` and `"4"`; the reset header does carry
the formatted absolute timestamp `now + resetAfter` (here `100 + 50`), and the
next handler is invoked. -/
theorem ratelimit_quota_headers_rune_cex :
    RateLimitMiddleware 5 (fun t => fmtInt t.natAbs) 100 (Except.ok ⟨1, 4, -1, 50⟩) =
      { status := none, body := none,
        headers := [("X-RateLimit-Limit", "\x05"), ("X-RateLimit-Remaining", "\x04"),
                    ("X-RateLimit-Reset", "150")],
        aborted := false, nextCalled := true, logSeverity := none } ∧
    ("\x05" : String) ≠ "5" ∧ ("\x04" : String) ≠ "4" := by
  refine ⟨?_, by decide, by decide⟩
  decide

/-! ## Theorems: the authentication gate (C7) -/

/-- C7 (amended): every rejection of `AuthMiddleware`, whatever the failure
kind, carries HTTP status 401.  The uniformity stops there: the response
bodies differ by kind (see the counterexample), so only the status code is
indistinguishable. -/
theorem auth_rejections_all_401 (h : String) (parse : String → TokenParse) (e : APIError)
    (hrej : AuthMiddleware h parse = AuthOutcome.rejected e) : e.statusCode = 401 := by
  simp only [AuthMiddleware] at hrej
  split at hrej
  · simp only [AuthOutcome.rejected.injEq] at hrej
    rw [← hrej]
    rfl
  · split at hrej
    · simp only [AuthOutcome.rejected.injEq] at hrej
      rw [← hrej]
      rfl
    · split at hrej
      · simp only [AuthOutcome.rejected.injEq] at hrej
        rw [← hrej]
        rfl
      · simp only [AuthOutcome.rejected.injEq] at hrej
        rw [← hrej]
        rfl
      · exact absurd hrej (by simp)

/-- Witness for `auth_rejections_all_401`: the missing-header rejection. -/
theorem auth_rejections_all_401_w : ErrUnauthorized.statusCode = 401 :=
  auth_rejections_all_401 "" (fun _ => TokenParse.parseFailed) ErrUnauthorized rfl

/-- C7 (counterexample to the claim as stated): the three `AuthError` kinds
produce three different response bodies — codes `"unauthorized"`,
`"invalid_auth_header"`, `"invalid_token"` with different messages — so the
caller can tell which validation step failed; only the 401 status is
common. -/
theorem auth_bodies_differ_by_kind_cex :
    AuthMiddleware "" (fun _ => TokenParse.parseFailed) =
      AuthOutcome.rejected ErrUnauthorized ∧
    AuthMiddleware "Token abc" (fun _ => TokenParse.parseFailed) =
      AuthOutcome.rejected
        (NewAPIError 401 "invalid_auth_header" "Invalid authorization header format") ∧
    AuthMiddleware "Bearer abc" (fun _ => TokenParse.parseFailed) =
      AuthOutcome.rejected (NewAPIError 401 "invalid_token" "Invalid token") ∧
    ErrUnauthorized ≠
      NewAPIError 401 "invalid_auth_header" "Invalid authorization header format" ∧
    NewAPIError 401 "invalid_auth_header" "Invalid authorization header format" ≠
      NewAPIError 401 "invalid_token" "Invalid token" := by
  refine ⟨?_, ?_, ?_, by decide, by decide⟩ <;> decide

/-! ## Theorems: the user service (C9, C10) -/

/-- C9: `CreateUser` is atomic.  Whatever subset of the three steps inside the
transaction fails (bcrypt hashing, the user insert, the audit insert), an
error result leaves the database exactly as it was — neither row persists —
and a success commits exactly the new user row and its `"user_created"` audit
row together. -/
theorem create_user_atomicity (f : TxFaults) (hashed : String) (p : CreateUserParams)
    (s : DBState) :
    (∀ e, (CreateUser f hashed p s).1 = Except.error e → (CreateUser f hashed p s).2 = s) ∧
    (∀ u, (CreateUser f hashed p s).1 = Except.ok u →
      (CreateUser f hashed p s).2.users = s.users ++ [u] ∧
      (CreateUser f hashed p s).2.audits = s.audits ++ [⟨u.id, "user_created"⟩] ∧
      u = ⟨s.nextId, p.username, p.email, hashed, "user"⟩) := by
  obtain ⟨hf, uf, af⟩ := f
  cases hf <;> cases uf <;> cases af <;>
    simp [CreateUser, WithTx, createUserTxBody]

/-- Witness for `create_user_atomicity`: the fault-free run on an empty
database. -/
theorem create_user_atomicity_w :
    (∀ e, (CreateUser ⟨false, false, false⟩ "H" ⟨"jo", "j@x", "pw"⟩ ⟨[], [], 1⟩).1 =
        Except.error e →
      (CreateUser ⟨false, false, false⟩ "H" ⟨"jo", "j@x", "pw"⟩ ⟨[], [], 1⟩).2 =
        ⟨[], [], 1⟩) ∧
    (∀ u, (CreateUser ⟨false, false, false⟩ "H" ⟨"jo", "j@x", "pw"⟩ ⟨[], [], 1⟩).1 =
        Except.ok u →
      (CreateUser ⟨false, false, false⟩ "H" ⟨"jo", "j@x", "pw"⟩ ⟨[], [], 1⟩).2.users =
        [] ++ [u] ∧
      (CreateUser ⟨false, false, false⟩ "H" ⟨"jo", "j@x", "pw"⟩ ⟨[], [], 1⟩).2.audits =
        [] ++ [⟨u.id, "user_created"⟩] ∧
      u = ⟨1, "jo", "j@x", "H", "user"⟩) :=
  create_user_atomicity ⟨false, false, false⟩ "H" ⟨"jo", "j@x", "pw"⟩ ⟨[], [], 1⟩

/-- C10 (counterexample to the claim as stated): a missing user — the
pgx-backed `GetUserByEmail` yields `pgx.ErrNoRows` — makes `Login` return
`ErrInternalServerError`, because the `err == sql.ErrNoRows` test at
`services/user.go` line 143 compares against the wrong package's sentinel and
never matches; a bcrypt mismatch returns `ErrUnauthorized`.  The two service
errors differ, refuting "the service returns the same unauthorized error". -/
theorem login_service_error_differs_cex :
    Login (Except.error GoError.pgxNoRows) (fun _ _ => false) "pw" =
      Except.error ErrInternalServerError ∧
    Login (Except.ok ⟨1, "jo", "j@x", "H", "user"⟩) (fun _ _ => false) "pw" =
      Except.error ErrUnauthorized ∧
    ErrInternalServerError ≠ ErrUnauthorized := by
  refine ⟨by simp [Login], by simp [Login], by decide⟩

/-- C10 (amended): the two failure causes produce different service errors —
a missing user gives `ErrInternalServerError` (the `sql.ErrNoRows` branch is
dead under pgx), a bcrypt mismatch gives `ErrUnauthorized` — but the handler
collapses every service error to the same `401 "invalid credentials"`
response, so the causes remain indistinguishable to the caller at the HTTP
boundary. -/
theorem login_http_indistinguishable (bm : String → String → Bool) (password : String)
    (u : UserRow) (sign : UserRow → Except Unit String)
    (hpw : bm u.passwordHash password = false) :
    Login (Except.error GoError.pgxNoRows) bm password =
      Except.error ErrInternalServerError ∧
    Login (Except.ok u) bm password = Except.error ErrUnauthorized ∧
    LoginHandler (Login (Except.error GoError.pgxNoRows) bm password) sign =
      (401, "invalid credentials") ∧
    LoginHandler (Login (Except.ok u) bm password) sign =
      LoginHandler (Login (Except.error GoError.pgxNoRows) bm password) sign := by
  simp [Login, LoginHandler, hpw]

/-- Witness for `login_http_indistinguishable`: a concrete user whose stored
hash matches nothing. -/
theorem login_http_indistinguishable_w :
    Login (Except.error GoError.pgxNoRows) (fun _ _ => false) "pw" =
      Except.error ErrInternalServerError ∧
    Login (Except.ok ⟨1, "jo", "j@x", "H", "user"⟩) (fun _ _ => false) "pw" =
      Except.error ErrUnauthorized ∧
    LoginHandler (Login (Except.error GoError.pgxNoRows) (fun _ _ => false) "pw")
        (fun _ => Except.ok "t") = (401, "invalid credentials") ∧
    LoginHandler (Login (Except.ok ⟨1, "jo", "j@x", "H", "user"⟩)
        (fun _ _ => false) "pw") (fun _ => Except.ok "t") =
      LoginHandler (Login (Except.error GoError.pgxNoRows) (fun _ _ => false) "pw")
        (fun _ => Except.ok "t") :=
  login_http_indistinguishable (fun _ _ => false) "pw" ⟨1, "jo", "j@x", "H", "user"⟩
    (fun _ => Except.ok "t") rfl
